import Mathlib

/-!
Verification of the task-manager client (`script.js`) together with the
backend schema and row-level-security policies (`supabase_schema.sql`,
reproduced in the repository README).

The embedding models:
  * the backend `tasks` table with its column defaults, check constraint
    and the RLS policies keyed on `auth.uid() = user_id`;
  * the client operations `ensureAuthenticated`, `fetchTasks`,
    `createTask` and `toggleTask`, including their loading/error UI
    handling (`setLoading` / `setError` inside try/catch/finally);
  * the startup `init` flow.

Principals (Supabase user UUIDs) are modelled as naturals, `gen_random_uuid`
as a fresh-id counter, and `now()` as a logical clock on the store.
Transport-level failures of a request are injected through an
`Option String` argument (`none` = the request reaches the backend,
`some msg` = the SDK call rejects with message `msg`).
-/

namespace TaskManager

/-- JavaScript `String.prototype.trim`: strips leading and trailing
whitespace. -/
def jsTrim (s : String) : String :=
  ⟨((s.data.dropWhile Char.isWhitespace).reverse.dropWhile Char.isWhitespace).reverse⟩

/-- A row of the `tasks` table (supabase_schema.sql). -/
structure Task where
  id : Nat
  user_id : Nat
  title : String
  is_complete : Bool
  created_at : Nat
  description : Option String
  priority : String
  due_date : Option String
deriving Repr, DecidableEq

/-- Backend state: the rows of `public.tasks`, the id generator
(`gen_random_uuid()`) and the clock (`now()`). -/
structure Store where
  rows : List Task
  nextId : Nat
  clock : Nat
deriving Repr, DecidableEq

/-- RLS policy `select_own_tasks`: `using (auth.uid() = user_id)`. -/
def selectPolicy (uid : Nat) (t : Task) : Bool := uid == t.user_id

/-- RLS policy `insert_own_tasks`: `with check (auth.uid() = user_id)`. -/
def insertPolicy (uid : Nat) (user_id : Nat) : Bool := uid == user_id

/-- RLS policy `update_own_tasks`: `using (auth.uid() = user_id)`. -/
def updatePolicy (uid : Nat) (t : Task) : Bool := uid == t.user_id

/-- The ordering requested by `.order('created_at', { ascending: false })`:
most recent first. -/
def createdDesc (a b : Task) : Prop := b.created_at ≤ a.created_at

instance : DecidableRel createdDesc := fun a b => Nat.decLe b.created_at a.created_at

instance : IsTotal Task createdDesc := ⟨fun a b => Nat.le_total b.created_at a.created_at⟩

instance : IsTrans Task createdDesc :=
  ⟨fun _ _ _ h1 h2 => Nat.le_trans h2 h1⟩

/-- Backend evaluation of `select('*').order('created_at', { ascending: false })`
under RLS: only rows owned by the caller are visible, sorted most recent
first. -/
def dbSelect (uid : Nat) (s : Store) : List Task :=
  List.insertionSort createdDesc (s.rows.filter (selectPolicy uid))

/-- The column values the client sends in `supabase.from('tasks').insert({...})`.
`priority := none` models a payload that omits the column, so that the
schema default `'normal'` applies. -/
structure InsertPayload where
  user_id : Nat
  title : String
  description : Option String
  priority : Option String
  due_date : Option String
  is_complete : Bool

/-- Backend rejection reasons for an insert. -/
inductive DbError
  | rlsViolation
  | checkViolation
deriving Repr, DecidableEq

/-- The Postgres error message the client would surface for each rejection. -/
def dbErrorMsg : DbError → String
  | .rlsViolation => "new row violates row-level security policy for table tasks"
  | .checkViolation => "new row for relation tasks violates check constraint tasks_priority_check"

/-- The schema constraint `check (priority in ('low','normal','high'))`. -/
def priorityCheck (p : String) : Bool := p == "low" || p == "normal" || p == "high"

/-- Backend evaluation of an insert: the `insert_own_tasks` policy checks
`auth.uid() = user_id`, the priority check constraint is enforced, the
default `'normal'` fills an omitted priority, and the store assigns
`id` (`gen_random_uuid()`) and `created_at` (`now()`). -/
def dbInsert (uid : Nat) (p : InsertPayload) (s : Store) : Except DbError (Store × Task) :=
  if ¬ insertPolicy uid p.user_id then .error .rlsViolation
  else
    let prio := p.priority.getD "normal"
    if ¬ priorityCheck prio then .error .checkViolation
    else
      let t : Task :=
        { id := s.nextId, user_id := p.user_id, title := p.title,
          is_complete := p.is_complete, created_at := s.clock,
          description := p.description, priority := prio, due_date := p.due_date }
      .ok ({ rows := t :: s.rows, nextId := s.nextId + 1, clock := s.clock + 1 }, t)

/-- The row transformation of `update({ is_complete: v }).eq('id', tid)`
under the `update_own_tasks` policy: a row is modified exactly when it
matches the query filter and is owned by the caller. -/
def updateRow (uid tid : Nat) (v : Bool) (t : Task) : Task :=
  if t.id == tid && updatePolicy uid t then { t with is_complete := v } else t

/-- Backend evaluation of the update. Matching zero rows is not an error:
PostgREST reports success with an empty result, so a filtered-out or
missing row is silently skipped. -/
def dbUpdate (uid tid : Nat) (v : Bool) (s : Store) : Store :=
  { s with rows := s.rows.map (updateRow uid tid v) }

/-- The client-visible UI state: the loading indicator (`setLoading`),
the error box (`setError`) and the rendered task list (`renderTasks`). -/
structure UIState where
  loading : Bool
  errorMsg : Option String
  rendered : List Task
deriving Repr, DecidableEq

/-- The error taxonomy of the spec, tagging which failure path an
operation took. -/
inductive TMError
  | validationError (msg : String)
  | storeError (msg : String)
  | authError (msg : String)
deriving Repr, DecidableEq

/-- The outcome of one client operation: the store afterwards, the UI
state afterwards, and which error path (if any) was taken. -/
structure OpResult where
  store : Store
  ui : UIState
  err : Option TMError
deriving Repr, DecidableEq

/-- `fetchTasks` (script.js): setLoading(true); setError(null); select
ordered by created_at descending; render, or catch and surface the
message; finally setLoading(false). -/
def fetchTasks (uid : Nat) (transport : Option String) (s : Store) (ui : UIState) : OpResult :=
  match transport with
  | some msg =>
      { store := s,
        ui := { loading := false, errorMsg := some msg, rendered := ui.rendered },
        err := some (.storeError msg) }
  | none =>
      { store := s,
        ui := { loading := false, errorMsg := none, rendered := dbSelect uid s },
        err := none }

/-- `createTask` (script.js): trims the title and rejects an empty one
before any request; trims the description and maps empty description and
empty due date to null; inserts with the caller's user_id and
`is_complete: false`; on success refetches; every path clears loading. -/
def createTask (uid : Nat) (titleRaw descRaw prioRaw dueRaw : String)
    (transport : Option String) (s : Store) (ui : UIState) : OpResult :=
  let title := jsTrim titleRaw
  if title = "" then
    { store := s,
      ui := { ui with loading := false, errorMsg := some "Title is required." },
      err := some (.validationError "Title is required.") }
  else
    let description := if jsTrim descRaw = "" then none else some (jsTrim descRaw)
    let dueDate := if dueRaw = "" then none else some dueRaw
    match transport with
    | some msg =>
        { store := s,
          ui := { loading := false, errorMsg := some msg, rendered := ui.rendered },
          err := some (.storeError msg) }
    | none =>
        match dbInsert uid
            { user_id := uid, title := title, description := description,
              priority := some prioRaw, due_date := dueDate, is_complete := false } s with
        | .error e =>
            { store := s,
              ui := { loading := false, errorMsg := some (dbErrorMsg e),
                      rendered := ui.rendered },
              err := some (.storeError (dbErrorMsg e)) }
        | .ok (s2, _) =>
            { store := s2, ui := (fetchTasks uid none s2 ui).ui, err := none }

/-- `toggleTask` (script.js): updates `is_complete` to the negation of the
supplied current state on the row matching the id, then refetches; every
path clears loading. -/
def toggleTask (uid tid : Nat) (isComplete : Bool)
    (transport : Option String) (s : Store) (ui : UIState) : OpResult :=
  match transport with
  | some msg =>
      { store := s,
        ui := { loading := false, errorMsg := some msg, rendered := ui.rendered },
        err := some (.storeError msg) }
  | none =>
      let s2 := dbUpdate uid tid (!isComplete) s
      { store := s2, ui := (fetchTasks uid none s2 ui).ui, err := none }

/-- The browser storage scope (persisted session) together with the
identity provider's supply of fresh principals. -/
structure AuthState where
  session : Option Nat
  nextPrincipal : Nat
deriving Repr, DecidableEq

/-- `ensureAuthenticated` (script.js): `getSession()`, and if no session
exists, `signInAnonymously()` creates a fresh principal and stores the
session; returns the state afterwards and `currentUserId`. -/
def ensureAuthenticated (a : AuthState) : AuthState × Nat :=
  match a.session with
  | some uid => (a, uid)
  | none =>
      ({ session := some a.nextPrincipal, nextPrincipal := a.nextPrincipal + 1 },
       a.nextPrincipal)

/-- Modelled from the spec: the initial UI state supplied by `index.html`,
which is not part of the provided sources. Per the spec the presentation
layer starts idle — no loading indicator shown, no error, nothing
rendered. -/
def initialUI : UIState := { loading := false, errorMsg := none, rendered := [] }

/-- `init` (script.js): ensureAuthenticated then fetchTasks, with a catch
that surfaces an auth failure; `fetchTasks` catches its own errors. -/
def init (authTransport fetchTransport : Option String) (a : AuthState) (s : Store) :
    AuthState × OpResult :=
  match authTransport with
  | some msg =>
      (a, { store := s, ui := { initialUI with errorMsg := some msg },
            err := some (.authError msg) })
  | none =>
      let r := ensureAuthenticated a
      (r.1, fetchTasks r.2 fetchTransport s initialUI)

/-! Sample data used by the witness theorems. -/

/-- A task owned by principal 1. -/
def task1 : Task := ⟨10, 1, "alpha", false, 3, none, "normal", none⟩

/-- A task owned by principal 2. -/
def task2 : Task := ⟨11, 2, "beta", false, 5, some "notes", "high", some "2026-01-01"⟩

/-- A second task owned by principal 1, created later. -/
def task3 : Task := ⟨12, 1, "gamma", true, 7, none, "low", none⟩

/-- A store holding tasks of two principals. -/
def sampleStore : Store := ⟨[task1, task2, task3], 13, 9⟩

/-- An idle UI state. -/
def sampleUI : UIState := ⟨false, none, []⟩

/-! Helper lemmas. -/

/-- Membership in the RLS-filtered, ordered select. -/
theorem mem_dbSelect {uid : Nat} {s : Store} {t : Task} :
    t ∈ dbSelect uid s ↔ t ∈ s.rows ∧ t.user_id = uid := by
  unfold dbSelect
  rw [List.mem_insertionSort, List.mem_filter]
  simp only [selectPolicy, beq_iff_eq]
  exact and_congr_right fun _ => eq_comm

/-- A row not owned by the caller is untouched by the update. -/
theorem updateRow_eq_of_not_owned {uid tid : Nat} {v : Bool} {t : Task}
    (h : t.user_id ≠ uid) : updateRow uid tid v t = t := by
  unfold updateRow
  have hp : updatePolicy uid t = false := by
    simp only [updatePolicy, beq_eq_false_iff_ne, ne_eq]
    exact fun hh => h hh.symm
  simp [hp]

/-- A row whose id does not match the query filter is untouched. -/
theorem updateRow_eq_of_ne_id {uid tid : Nat} {v : Bool} {t : Task}
    (h : t.id ≠ tid) : updateRow uid tid v t = t := by
  unfold updateRow
  have hb : (t.id == tid) = false := beq_eq_false_iff_ne.mpr h
  simp [hb]

/-- The update never changes who owns a row. -/
theorem updateRow_user_id (uid tid : Nat) (v : Bool) (t : Task) :
    (updateRow uid tid v t).user_id = t.user_id := by
  unfold updateRow
  split <;> rfl

/-- A map that fixes every element of a list is the identity on it. -/
theorem map_eq_self_of_forall {α : Type} {f : α → α} {l : List α}
    (h : ∀ a ∈ l, f a = a) : l.map f = l := by
  rw [List.map_congr_left h]
  simp

/-! Theorems for the claims. -/

/-- Claim C1: every task `listTasks()` returns to caller P is owned by P; a
distinct principal never observes P's tasks; the update cannot mutate (and
the insert cannot create) a row owned by someone other than the caller. -/
theorem ownership_invariant (p1 p2 : Nat) (s : Store) (hp : p1 ≠ p2) :
    (∀ t ∈ dbSelect p1 s, t.user_id = p1) ∧
    (∀ t ∈ dbSelect p2 s, t.user_id ≠ p1) ∧
    (∀ tid b t, t.user_id ≠ p1 → (t ∈ (dbUpdate p1 tid b s).rows ↔ t ∈ s.rows)) ∧
    (∀ p s2 t, dbInsert p1 p s = Except.ok (s2, t) → t.user_id = p1) := by
  refine ⟨fun t ht => (mem_dbSelect.mp ht).2,
          fun t ht h1 => hp (h1.symm.trans (mem_dbSelect.mp ht).2),
          ?_, ?_⟩
  · intro tid b t hne
    constructor
    · intro ht
      rcases List.mem_map.mp ht with ⟨a, ha, hfa⟩
      have hau : a.user_id ≠ p1 := by
        rw [← hfa, updateRow_user_id] at hne
        exact hne
      rw [updateRow_eq_of_not_owned hau] at hfa
      exact hfa ▸ ha
    · intro ht
      exact List.mem_map.mpr ⟨t, ht, updateRow_eq_of_not_owned hne⟩
  · intro p s2 t h
    simp only [dbInsert] at h
    split at h
    · exact nomatch h
    next h1 =>
      split at h
      · exact nomatch h
      next =>
        rw [not_not] at h1
        simp only [insertPolicy, beq_iff_eq] at h1
        rw [Except.ok.injEq, Prod.mk.injEq] at h
        rw [← h.2]
        exact h1.symm

/-- Claim C1 witness at principals 1 and 2 over the sample store. -/
theorem ownership_invariant_witness :
    (1 : Nat) ≠ 2 ∧
    ((∀ t ∈ dbSelect 1 sampleStore, t.user_id = 1) ∧
     (∀ t ∈ dbSelect 2 sampleStore, t.user_id ≠ 1) ∧
     (∀ tid b t, t.user_id ≠ 1 → (t ∈ (dbUpdate 1 tid b sampleStore).rows ↔ t ∈ sampleStore.rows)) ∧
     (∀ p s2 t, dbInsert 1 p sampleStore = Except.ok (s2, t) → t.user_id = 1)) :=
  ⟨by decide, ownership_invariant 1 2 sampleStore (by decide)⟩

/-- Claim C2: `listTasks()` output is sorted by `created_at` descending for
any store state, is a permutation of (hence contains exactly) the caller's
rows, and is empty when the caller owns none. -/
theorem listTasks_sorted_and_scoped (uid : Nat) (s : Store) :
    List.Sorted (fun a b : Task => b.created_at ≤ a.created_at) (dbSelect uid s) ∧
    (dbSelect uid s).Perm (s.rows.filter (selectPolicy uid)) ∧
    (∀ t : Task, t ∈ dbSelect uid s ↔ t ∈ s.rows ∧ t.user_id = uid) ∧
    ((∀ t ∈ s.rows, t.user_id ≠ uid) → dbSelect uid s = []) := by
  refine ⟨List.sorted_insertionSort createdDesc _,
          List.perm_insertionSort createdDesc _,
          fun t => mem_dbSelect, fun h => ?_⟩
  cases hd : dbSelect uid s with
  | nil => rfl
  | cons a l =>
    have ha : a ∈ dbSelect uid s := by
      rw [hd]; exact List.mem_cons_self a l
    have hm := mem_dbSelect.mp ha
    exact absurd hm.2 (h a hm.1)

/-- Claim C2 witness at principal 1 over the sample store. -/
theorem listTasks_sorted_and_scoped_witness :
    List.Sorted (fun a b : Task => b.created_at ≤ a.created_at) (dbSelect 1 sampleStore) ∧
    (dbSelect 1 sampleStore).Perm (sampleStore.rows.filter (selectPolicy 1)) ∧
    (∀ t : Task, t ∈ dbSelect 1 sampleStore ↔ t ∈ sampleStore.rows ∧ t.user_id = 1) ∧
    ((∀ t ∈ sampleStore.rows, t.user_id ≠ 1) → dbSelect 1 sampleStore = []) :=
  listTasks_sorted_and_scoped 1 sampleStore

/-- Claim C3: a create with an empty title fails on the client-side
validation path ("Title is required.") and leaves the store untouched,
whatever the transport would have done. -/
theorem createTask_empty_title (uid : Nat) (descRaw prioRaw dueRaw : String)
    (tr : Option String) (s : Store) (ui : UIState) :
    (createTask uid "" descRaw prioRaw dueRaw tr s ui).store = s ∧
    (createTask uid "" descRaw prioRaw dueRaw tr s ui).err =
      some (TMError.validationError "Title is required.") ∧
    (createTask uid "" descRaw prioRaw dueRaw tr s ui).ui.errorMsg =
      some "Title is required." := by
  have h : jsTrim "" = "" := rfl
  simp [createTask, h]

/-- Claim C3 witness: concrete empty-title create over the sample store. -/
theorem createTask_empty_title_witness :
    (createTask 1 "" "d" "normal" "" none sampleStore sampleUI).store = sampleStore ∧
    (createTask 1 "" "d" "normal" "" none sampleStore sampleUI).err =
      some (TMError.validationError "Title is required.") ∧
    (createTask 1 "" "d" "normal" "" none sampleStore sampleUI).ui.errorMsg =
      some "Title is required." :=
  createTask_empty_title 1 "d" "normal" "" none sampleStore sampleUI

/-- Claim C7: ensureAuthenticated is idempotent in one storage scope — the
second call returns the same principal and the same state as the first
(no additional principal is created), and the first call with no prior
session creates and stores a fresh principal. -/
theorem ensureSession_idempotent (a : AuthState) :
    (ensureAuthenticated (ensureAuthenticated a).1).2 = (ensureAuthenticated a).2 ∧
    (ensureAuthenticated (ensureAuthenticated a).1).1 = (ensureAuthenticated a).1 ∧
    (a.session = none →
      (ensureAuthenticated a).1.session = some a.nextPrincipal ∧
      (ensureAuthenticated a).2 = a.nextPrincipal) := by
  cases h : a.session <;> simp [ensureAuthenticated, h]

/-- Claim C7 witness: a fresh storage scope. -/
theorem ensureSession_idempotent_witness :
    (ensureAuthenticated (ensureAuthenticated ⟨none, 0⟩).1).2 =
      (ensureAuthenticated ⟨none, 0⟩).2 ∧
    (ensureAuthenticated (ensureAuthenticated ⟨none, 0⟩).1).1 =
      (ensureAuthenticated ⟨none, 0⟩).1 ∧
    (AuthState.session ⟨none, 0⟩ = none →
      (ensureAuthenticated ⟨none, 0⟩).1.session = some (AuthState.nextPrincipal ⟨none, 0⟩) ∧
      (ensureAuthenticated ⟨none, 0⟩).2 = AuthState.nextPrincipal ⟨none, 0⟩) :=
  ensureSession_idempotent ⟨none, 0⟩

/-- The row a successful client create inserts, given the raw form inputs. -/
def clientRow (uid : Nat) (titleRaw descRaw prioRaw dueRaw : String) (s : Store) : Task :=
  { id := s.nextId, user_id := uid, title := jsTrim titleRaw, is_complete := false,
    created_at := s.clock,
    description := if jsTrim descRaw = "" then none else some (jsTrim descRaw),
    priority := prioRaw,
    due_date := if dueRaw = "" then none else some dueRaw }

/-- Evaluation of the whole create operation on the success path. -/
theorem createTask_success_eq (uid : Nat) (titleRaw descRaw prioRaw dueRaw : String)
    (s : Store) (ui : UIState)
    (ht : jsTrim titleRaw ≠ "") (hprio : priorityCheck prioRaw = true) :
    createTask uid titleRaw descRaw prioRaw dueRaw none s ui =
      { store := ⟨clientRow uid titleRaw descRaw prioRaw dueRaw s :: s.rows,
                  s.nextId + 1, s.clock + 1⟩,
        ui := ⟨false, none,
               dbSelect uid ⟨clientRow uid titleRaw descRaw prioRaw dueRaw s :: s.rows,
                             s.nextId + 1, s.clock + 1⟩⟩,
        err := none } := by
  have hpol : insertPolicy uid uid = true := by simp [insertPolicy]
  simp [createTask, dbInsert, fetchTasks, hpol, hprio, ht, clientRow]

/-- A successful raw insert yields the row the payload describes, stamped by
the store. -/
theorem dbInsert_ok_shape (uid : Nat) (p : InsertPayload) (s : Store) (s2 : Store) (t : Task)
    (h : dbInsert uid p s = Except.ok (s2, t)) :
    t.id = s.nextId ∧ t.created_at = s.clock ∧ t.user_id = p.user_id ∧
    t.is_complete = p.is_complete ∧ t.priority = p.priority.getD "normal" ∧
    priorityCheck t.priority = true ∧ s2.rows = t :: s.rows := by
  simp only [dbInsert] at h
  split at h
  · exact nomatch h
  next =>
    split at h
    · exact nomatch h
    next h2 =>
      rw [not_not] at h2
      rw [Except.ok.injEq, Prod.mk.injEq] at h
      obtain ⟨hs2, htt⟩ := h
      subst hs2
      subst htt
      exact ⟨rfl, rfl, rfl, rfl, rfl, h2, rfl⟩

/-- Claim C4: a successful create with a non-empty (trimmed) title and a
valid priority inserts exactly one row, owned by the caller, incomplete,
stamped with the store's clock and generated id; at the store level the
priority defaults to normal when the payload omits it, and any successfully
inserted row has a priority in the allowed set. -/
theorem createTask_success_inserts (uid : Nat) (titleRaw descRaw prioRaw dueRaw : String)
    (s : Store) (ui : UIState)
    (ht : jsTrim titleRaw ≠ "") (hprio : priorityCheck prioRaw = true) :
    (∃ t : Task,
      (createTask uid titleRaw descRaw prioRaw dueRaw none s ui).store.rows = t :: s.rows ∧
      t.user_id = uid ∧ t.is_complete = false ∧ t.created_at = s.clock ∧
      t.id = s.nextId ∧ t.priority = prioRaw ∧ priorityCheck t.priority = true ∧
      (createTask uid titleRaw descRaw prioRaw dueRaw none s ui).err = none) ∧
    (∀ p : InsertPayload, ∀ s2 : Store, ∀ t2 : Task, p.priority = none →
      dbInsert uid p s = Except.ok (s2, t2) → t2.priority = "normal") ∧
    (∀ p : InsertPayload, ∀ s2 : Store, ∀ t2 : Task,
      dbInsert uid p s = Except.ok (s2, t2) → priorityCheck t2.priority = true) := by
  refine ⟨⟨clientRow uid titleRaw descRaw prioRaw dueRaw s, ?_⟩, ?_, ?_⟩
  · rw [createTask_success_eq uid titleRaw descRaw prioRaw dueRaw s ui ht hprio]
    exact ⟨rfl, rfl, rfl, rfl, rfl, rfl, hprio, rfl⟩
  · intro p s2 t2 hnone h
    have := (dbInsert_ok_shape uid p s s2 t2 h).2.2.2.2.1
    rw [hnone] at this
    exact this
  · intro p s2 t2 h
    exact (dbInsert_ok_shape uid p s s2 t2 h).2.2.2.2.2.1

/-- Claim C4 witness: creating "Buy milk" with priority high in the sample
store. -/
theorem createTask_success_inserts_witness :
    jsTrim "Buy milk" ≠ "" ∧ priorityCheck "high" = true ∧
    ((∃ t : Task,
      (createTask 1 "Buy milk" "" "high" "" none sampleStore sampleUI).store.rows =
        t :: sampleStore.rows ∧
      t.user_id = 1 ∧ t.is_complete = false ∧ t.created_at = sampleStore.clock ∧
      t.id = sampleStore.nextId ∧ t.priority = "high" ∧ priorityCheck t.priority = true ∧
      (createTask 1 "Buy milk" "" "high" "" none sampleStore sampleUI).err = none) ∧
    (∀ p : InsertPayload, ∀ s2 : Store, ∀ t2 : Task, p.priority = none →
      dbInsert 1 p sampleStore = Except.ok (s2, t2) → t2.priority = "normal") ∧
    (∀ p : InsertPayload, ∀ s2 : Store, ∀ t2 : Task,
      dbInsert 1 p sampleStore = Except.ok (s2, t2) → priorityCheck t2.priority = true)) :=
  ⟨by decide, by decide,
   createTask_success_inserts 1 "Buy milk" "" "high" "" sampleStore sampleUI
     (by decide) (by decide)⟩

/-- Claim C10: the title and description are trimmed before validation and
storage — a whitespace-only title is rejected exactly like an empty one
with no store mutation, and an all-whitespace description and an empty
due date are stored as null. -/
theorem createTask_normalizes (uid : Nat) (titleRaw descRaw prioRaw dueRaw : String)
    (s : Store) (ui : UIState) :
    (jsTrim titleRaw = "" →
      (createTask uid titleRaw descRaw prioRaw dueRaw none s ui).store = s ∧
      (createTask uid titleRaw descRaw prioRaw dueRaw none s ui).err =
        some (TMError.validationError "Title is required.")) ∧
    (jsTrim titleRaw ≠ "" → priorityCheck prioRaw = true →
      ∃ t : Task,
        (createTask uid titleRaw descRaw prioRaw dueRaw none s ui).store.rows = t :: s.rows ∧
        t.title = jsTrim titleRaw ∧
        t.description = (if jsTrim descRaw = "" then none else some (jsTrim descRaw)) ∧
        t.due_date = (if dueRaw = "" then none else some dueRaw)) := by
  constructor
  · intro h0
    simp [createTask, h0]
  · intro ht hprio
    refine ⟨clientRow uid titleRaw descRaw prioRaw dueRaw s, ?_⟩
    rw [createTask_success_eq uid titleRaw descRaw prioRaw dueRaw s ui ht hprio]
    exact ⟨rfl, rfl, rfl, rfl⟩

/-- Claim C10 witness: a padded title, an all-whitespace description and an
empty due date. -/
theorem createTask_normalizes_witness :
    (jsTrim "  hi  " = "" →
      (createTask 1 "  hi  " "   " "normal" "" none sampleStore sampleUI).store = sampleStore ∧
      (createTask 1 "  hi  " "   " "normal" "" none sampleStore sampleUI).err =
        some (TMError.validationError "Title is required.")) ∧
    (jsTrim "  hi  " ≠ "" → priorityCheck "normal" = true →
      ∃ t : Task,
        (createTask 1 "  hi  " "   " "normal" "" none sampleStore sampleUI).store.rows =
          t :: sampleStore.rows ∧
        t.title = jsTrim "  hi  " ∧
        t.description = (if jsTrim "   " = "" then none else some (jsTrim "   ")) ∧
        t.due_date = (if ("" : String) = "" then none else some "")) :=
  createTask_normalizes 1 "  hi  " "   " "normal" "" sampleStore sampleUI

/-- A row matching both the query filter and the policy gets the new flag. -/
theorem updateRow_eq_of_match {uid tid : Nat} {v : Bool} {t : Task}
    (h1 : t.id = tid) (h2 : t.user_id = uid) :
    updateRow uid tid v t = { t with is_complete := v } := by
  unfold updateRow
  simp [h1, h2, updatePolicy]

/-- The store a toggle leaves behind is the RLS-guarded update. -/
theorem toggleTask_store (uid tid : Nat) (b : Bool) (s : Store) (ui : UIState) :
    (toggleTask uid tid b none s ui).store = dbUpdate uid tid (!b) s := rfl

/-- Claim C5: toggling a task the caller owns flips its completion flag as
seen by a fresh fetch, and toggling again with the fetched state restores
the original store exactly. -/
theorem toggleComplete_roundtrip (uid : Nat) (t : Task) (s : Store) (ui : UIState)
    (hmem : t ∈ s.rows) (hown : t.user_id = uid)
    (huniq : ∀ t' ∈ s.rows, t'.id = t.id → t' = t) :
    ({ t with is_complete := !t.is_complete } ∈
        dbSelect uid (toggleTask uid t.id t.is_complete none s ui).store) ∧
    (toggleTask uid t.id (!t.is_complete) none
        (toggleTask uid t.id t.is_complete none s ui).store ui).store = s := by
  have key : ∀ r ∈ s.rows,
      updateRow uid t.id (!(!t.is_complete)) (updateRow uid t.id (!t.is_complete) r) = r := by
    intro r hr
    by_cases hid : r.id = t.id
    · have hrt : r = t := huniq r hr hid
      subst hrt
      rw [updateRow_eq_of_match rfl hown,
          updateRow_eq_of_match (t := { r with is_complete := !r.is_complete }) rfl hown,
          Bool.not_not]
    · rw [updateRow_eq_of_ne_id hid, updateRow_eq_of_ne_id hid]
  constructor
  · rw [toggleTask_store]
    refine mem_dbSelect.mpr ⟨?_, hown⟩
    exact List.mem_map.mpr ⟨t, hmem, updateRow_eq_of_match rfl hown⟩
  · rw [toggleTask_store, toggleTask_store]
    obtain ⟨rows, n, c⟩ := s
    have hrows : (rows.map (updateRow uid t.id (!t.is_complete))).map
        (updateRow uid t.id (!(!t.is_complete))) = rows := by
      rw [List.map_map]
      exact map_eq_self_of_forall key
    exact congrArg (fun l => Store.mk l n c) hrows

/-- Claim C5 witness: toggling task1 (owned by principal 1) twice. -/
theorem toggleComplete_roundtrip_witness :
    task1 ∈ sampleStore.rows ∧ task1.user_id = 1 ∧
    (∀ t' ∈ sampleStore.rows, t'.id = task1.id → t' = task1) ∧
    (({ task1 with is_complete := !task1.is_complete } ∈
        dbSelect 1 (toggleTask 1 task1.id task1.is_complete none sampleStore sampleUI).store) ∧
     (toggleTask 1 task1.id (!task1.is_complete) none
        (toggleTask 1 task1.id task1.is_complete none sampleStore sampleUI).store
        sampleUI).store = sampleStore) :=
  ⟨by decide, by decide, by decide,
   toggleComplete_roundtrip 1 task1 sampleStore sampleUI (by decide) (by decide) (by decide)⟩

/-- Claim C6 counterexample: principal 1 toggling task2 (id 11, owned by
principal 2) gets no error of any kind — the operation is silently ignored
rather than failing with a store error. -/
theorem toggle_foreign_no_error :
    (toggleTask 1 11 false none sampleStore sampleUI).err = none ∧
    (toggleTask 1 11 false none sampleStore sampleUI).store = sampleStore ∧
    (toggleTask 1 11 false none sampleStore sampleUI).ui.errorMsg = none := by decide

/-- Claim C6 (amended): toggling a row that does not exist or is not owned
by the caller performs no mutation and reports no error — the RLS policy
filters the update down to zero rows and the client surfaces nothing. -/
theorem toggle_unmatched_silent (uid tid : Nat) (b : Bool) (s : Store) (ui : UIState)
    (h : ∀ t ∈ s.rows, t.id = tid → t.user_id ≠ uid) :
    (toggleTask uid tid b none s ui).store = s ∧
    (toggleTask uid tid b none s ui).err = none ∧
    (toggleTask uid tid b none s ui).ui.errorMsg = none := by
  have hrows : s.rows.map (updateRow uid tid (!b)) = s.rows := by
    apply map_eq_self_of_forall
    intro r hr
    by_cases hid : r.id = tid
    · exact updateRow_eq_of_not_owned (h r hr hid)
    · exact updateRow_eq_of_ne_id hid
  refine ⟨?_, rfl, rfl⟩
  rw [toggleTask_store]
  obtain ⟨rows, n, c⟩ := s
  exact congrArg (fun l => Store.mk l n c) hrows

/-- Claim C6 (amended) witness: principal 1 toggling the foreign task2. -/
theorem toggle_unmatched_silent_witness :
    (∀ t ∈ sampleStore.rows, t.id = 11 → t.user_id ≠ 1) ∧
    ((toggleTask 1 11 false none sampleStore sampleUI).store = sampleStore ∧
     (toggleTask 1 11 false none sampleStore sampleUI).err = none ∧
     (toggleTask 1 11 false none sampleStore sampleUI).ui.errorMsg = none) :=
  ⟨by decide, toggle_unmatched_silent 1 11 false sampleStore sampleUI (by decide)⟩

/-- Claim C9: a toggle changes at most the is_complete flag — every row
keeps its id, owner, title, description, priority, due date and creation
time; rows not matching the id-and-owner condition are untouched, and the
matching row's flag becomes the negation of the supplied state. -/
theorem toggle_frame (uid tid : Nat) (b : Bool) (s : Store) (ui : UIState) :
    (toggleTask uid tid b none s ui).store.nextId = s.nextId ∧
    (toggleTask uid tid b none s ui).store.clock = s.clock ∧
    List.Forall₂ (fun t t' : Task =>
      t'.id = t.id ∧ t'.user_id = t.user_id ∧ t'.title = t.title ∧
      t'.description = t.description ∧ t'.priority = t.priority ∧
      t'.due_date = t.due_date ∧ t'.created_at = t.created_at ∧
      (¬(t.id = tid ∧ t.user_id = uid) → t' = t) ∧
      (t.id = tid → t.user_id = uid → t'.is_complete = !b))
      s.rows (toggleTask uid tid b none s ui).store.rows := by
  refine ⟨rfl, rfl, ?_⟩
  rw [toggleTask_store]
  show List.Forall₂ _ s.rows (s.rows.map (updateRow uid tid (!b)))
  rw [List.forall₂_map_right_iff, List.forall₂_same]
  intro x _
  by_cases hc : x.id = tid ∧ x.user_id = uid
  · rw [updateRow_eq_of_match hc.1 hc.2]
    exact ⟨rfl, rfl, rfl, rfl, rfl, rfl, rfl, fun hn => absurd hc hn, fun _ _ => rfl⟩
  · have hx : updateRow uid tid (!b) x = x := by
      by_cases hid : x.id = tid
      · exact updateRow_eq_of_not_owned fun hu => hc ⟨hid, hu⟩
      · exact updateRow_eq_of_ne_id hid
    rw [hx]
    exact ⟨rfl, rfl, rfl, rfl, rfl, rfl, rfl, fun _ => rfl,
           fun h1 h2 => absurd ⟨h1, h2⟩ hc⟩

/-- Claim C9 witness: toggling task1 in the sample store. -/
theorem toggle_frame_witness :
    (toggleTask 1 10 false none sampleStore sampleUI).store.nextId = sampleStore.nextId ∧
    (toggleTask 1 10 false none sampleStore sampleUI).store.clock = sampleStore.clock ∧
    List.Forall₂ (fun t t' : Task =>
      t'.id = t.id ∧ t'.user_id = t.user_id ∧ t'.title = t.title ∧
      t'.description = t.description ∧ t'.priority = t.priority ∧
      t'.due_date = t.due_date ∧ t'.created_at = t.created_at ∧
      (¬(t.id = 10 ∧ t.user_id = 1) → t' = t) ∧
      (t.id = 10 → t.user_id = 1 → t'.is_complete = !false))
      sampleStore.rows (toggleTask 1 10 false none sampleStore sampleUI).store.rows :=
  toggle_frame 1 10 false sampleStore sampleUI

/-- Claim C8: every operation, on every outcome (including injected
transport failures), ends with the loading indicator cleared, and each
failing path surfaces its message in the error box. -/
theorem errors_nonfatal (uid tid : Nat) (b : Bool)
    (titleRaw descRaw prioRaw dueRaw msg : String)
    (tr tr2 : Option String) (a : AuthState) (s : Store) (ui : UIState) :
    (fetchTasks uid tr s ui).ui.loading = false ∧
    (createTask uid titleRaw descRaw prioRaw dueRaw tr s ui).ui.loading = false ∧
    (toggleTask uid tid b tr s ui).ui.loading = false ∧
    ((init tr tr2 a s).2).ui.loading = false ∧
    (fetchTasks uid (some msg) s ui).ui.errorMsg = some msg ∧
    (toggleTask uid tid b (some msg) s ui).ui.errorMsg = some msg ∧
    (jsTrim titleRaw ≠ "" →
      (createTask uid titleRaw descRaw prioRaw dueRaw (some msg) s ui).ui.errorMsg = some msg) ∧
    ((init (some msg) tr2 a s).2).ui.errorMsg = some msg ∧
    (jsTrim titleRaw = "" →
      (createTask uid titleRaw descRaw prioRaw dueRaw tr s ui).ui.errorMsg =
        some "Title is required." ∧
      (createTask uid titleRaw descRaw prioRaw dueRaw tr s ui).err =
        some (TMError.validationError "Title is required.")) ∧
    (jsTrim titleRaw ≠ "" → ∀ e : DbError,
      dbInsert uid
        { user_id := uid, title := jsTrim titleRaw,
          description := if jsTrim descRaw = "" then none else some (jsTrim descRaw),
          priority := some prioRaw,
          due_date := if dueRaw = "" then none else some dueRaw,
          is_complete := false } s = Except.error e →
      (createTask uid titleRaw descRaw prioRaw dueRaw none s ui).ui.errorMsg =
        some (dbErrorMsg e) ∧
      (createTask uid titleRaw descRaw prioRaw dueRaw none s ui).err =
        some (TMError.storeError (dbErrorMsg e))) := by
  refine ⟨?_, ?_, ?_, ?_, rfl, rfl, ?_, rfl, ?_, ?_⟩
  · cases tr <;> rfl
  · simp only [createTask]
    split
    · rfl
    · split
      · rfl
      · split
        · rfl
        · rfl
  · cases tr <;> rfl
  · cases tr with
    | some m => rfl
    | none => cases tr2 <;> rfl
  · intro h0
    simp only [createTask]
    rw [if_neg h0]
  · intro h0
    exact ⟨by simp [createTask, h0], by simp [createTask, h0]⟩
  · intro h0 e he
    constructor
    · simp only [createTask]
      rw [if_neg h0, he]
    · simp only [createTask]
      rw [if_neg h0, he]

/-- Claim C8 witness: a failing transport against the sample store, with an
invalid priority so that the backend-rejection branch is exercised. -/
theorem errors_nonfatal_witness :
    (fetchTasks 1 (some "boom") sampleStore sampleUI).ui.loading = false ∧
    (createTask 1 "t" "" "urgent" "" (some "boom") sampleStore sampleUI).ui.loading = false ∧
    (toggleTask 1 10 false (some "boom") sampleStore sampleUI).ui.loading = false ∧
    ((init (some "boom") (some "boom") ⟨none, 0⟩ sampleStore).2).ui.loading = false ∧
    (fetchTasks 1 (some "boom") sampleStore sampleUI).ui.errorMsg = some "boom" ∧
    (toggleTask 1 10 false (some "boom") sampleStore sampleUI).ui.errorMsg = some "boom" ∧
    (jsTrim "t" ≠ "" →
      (createTask 1 "t" "" "urgent" "" (some "boom") sampleStore sampleUI).ui.errorMsg =
        some "boom") ∧
    ((init (some "boom") (some "boom") ⟨none, 0⟩ sampleStore).2).ui.errorMsg = some "boom" ∧
    (jsTrim "t" = "" →
      (createTask 1 "t" "" "urgent" "" (some "boom") sampleStore sampleUI).ui.errorMsg =
        some "Title is required." ∧
      (createTask 1 "t" "" "urgent" "" (some "boom") sampleStore sampleUI).err =
        some (TMError.validationError "Title is required.")) ∧
    (jsTrim "t" ≠ "" → ∀ e : DbError,
      dbInsert 1
        { user_id := 1, title := jsTrim "t",
          description := if jsTrim "" = "" then none else some (jsTrim ""),
          priority := some "urgent",
          due_date := if ("" : String) = "" then none else some "",
          is_complete := false } sampleStore = Except.error e →
      (createTask 1 "t" "" "urgent" "" none sampleStore sampleUI).ui.errorMsg =
        some (dbErrorMsg e) ∧
      (createTask 1 "t" "" "urgent" "" none sampleStore sampleUI).err =
        some (TMError.storeError (dbErrorMsg e))) :=
  errors_nonfatal 1 10 false "t" "" "urgent" "" "boom" (some "boom") (some "boom")
    ⟨none, 0⟩ sampleStore sampleUI

end TaskManager
